import Mathlib

/-!
Verification of the PULSO backend glue layer (chat router and Gemini AI
service) against its natural-language specification.

The Python source is shallowly embedded below:

* pure string and arithmetic helpers become Lean functions over
  `List Char` / `String` / `ℚ`;
* the external collaborators (storage, the generative-AI endpoint) are
  abstracted as explicit function parameters or as an `Except`-valued
  outcome of the single outbound call, exactly as the handlers consume
  them;
* Python exceptions are modelled with `Except PyErr`; a function that can
  raise returns `Except`, a function that never raises returns a plain
  value.

Where the Python code calls `math`-level operations whose results are
irrational (the two square roots in the HRV computation), the embedding
keeps the exact pre-square-root rational values (`_calculate_hrv_sq`) and
the theorems state the square-root facts through `Real.sqrt` applied to
those values.
-/

/-! ## Characters and Python string helpers -/

/-- The double-quote character. -/
def quoteC : Char := Char.ofNat 34

/-- The backslash character. -/
def bslashC : Char := Char.ofNat 92

/-- The opening curly-brace character. -/
def lbraceC : Char := Char.ofNat 123

/-- The closing curly-brace character. -/
def rbraceC : Char := Char.ofNat 125

/-- The backtick character. -/
def btickC : Char := Char.ofNat 96

/-- The apostrophe character (used inside several fixed response strings). -/
def aposC : Char := Char.ofNat 39

/-- Apostrophe as a one-character string. -/
def apos : String := String.singleton aposC

/-- Whitespace characters recognised by Python `str.strip()` (ASCII subset;
the fixed strings manipulated here contain no exotic Unicode whitespace). -/
def pyWsChar (c : Char) : Bool :=
  (c == ' ') || (c == '\t') || (c == '\n') || (c == '\r') ||
  (c == Char.ofNat 11) || (c == Char.ofNat 12)

/-- Python `str.strip()` on a character list: drop whitespace at both ends. -/
def pyStripL (cs : List Char) : List Char :=
  ((cs.dropWhile pyWsChar).reverse.dropWhile pyWsChar).reverse

/-- Python `str.strip()`. -/
def pyStrip (s : String) : String := String.mk (pyStripL s.data)

/-- Python `str.lower()` (ASCII case mapping; the fixed keyword lists are
all ASCII). -/
def pyLower (s : String) : String := String.mk (s.data.map Char.toLower)

/-- Python `needle in haystack` substring test. -/
def containsSub (needle haystack : String) : Bool :=
  decide (needle.data <:+: haystack.data)

/-- Python `any(word in text for word in words)`. -/
def containsAny (text : String) (words : List String) : Bool :=
  words.any (fun w => containsSub w text)

/-- Digits of a decimal numeral folded into a natural number. -/
def digitsToNat (ds : List Char) : Nat :=
  ds.foldl (fun n c => 10 * n + (c.toNat - 48)) 0

/-- Modelled from Python `int(s)` for `str` arguments: optional surrounding
whitespace, an optional sign, then one or more ASCII decimal digits.
(Underscore digit grouping and non-ASCII digits are not modelled; no input
exercised here uses them.)  Returns `none` where Python raises
`ValueError`. -/
def python_int (s : String) : Option Int :=
  let cs := pyStripL s.data
  let sign : Bool × List Char :=
    match cs with
    | c :: t => if c = '-' then (true, t) else if c = '+' then (false, t) else (false, cs)
    | [] => (false, [])
  let ds := sign.2
  if ds.isEmpty then none
  else if ds.all Char.isDigit then
    some (if sign.1 then -(digitsToNat ds : Int) else (digitsToNat ds : Int))
  else none

/-! ## Intent classifier (`chat.py`, `_detect_intent`)

The `get_recent_sessions_basic(user_id, limit=k)` collaborator is
abstracted as a most-recent-first list `recents` of session ids, of which
a call with `limit=k` returns the first `k`. -/

/-- Keyword set of the comparison branch. -/
def comparisonWords : List String := ["compare", "comparison", "versus", "vs", "difference"]

/-- Keyword set of the trend/history branch. -/
def trendWords : List String := ["trend", "week", "month", "over time", "history", "progress"]

/-- Keyword set of the session-query branch. -/
def sessionWords : List String :=
  ["last session", "recent", "my session", "today", "yesterday", "heart rate", "hrv", "ecg"]

/-- Python truthiness of the optional `session_id` argument: `None` and the
empty string are falsy. -/
def truthy : Option String → Bool
  | none => false
  | some s => !(s == "")

/-- Embeds `_detect_intent` from `chat.py`: first-match-wins intent
classification over the lowercased message. -/
def _detect_intent (message : String) (session_id : Option String)
    (recents : List String) : String × List String :=
  let message_lower := pyLower message
  if truthy session_id then ("session_specific", [session_id.getD ""])
  else if containsAny message_lower comparisonWords then ("comparison", recents.take 2)
  else if containsAny message_lower trendWords then ("trend_analysis", recents.take 7)
  else if containsAny message_lower sessionWords then ("session_query", recents.take 1)
  else ("general_health", [])

/-! ## Session records and the context builder (`chat.py`, `_build_context`) -/

/-- A complete session record as returned by the storage collaborator
(`get_complete_session`).  Fields are typed per the data model; the
dictionary-lookup defaults in the source are never exercised on a found
record. -/
structure Session where
  created_at : String
  duration_seconds : Int
  average_heart_rate : ℚ
  max_heart_rate : ℚ
  min_heart_rate : ℚ
  r_peak_count : Int
deriving Repr, DecidableEq

/-- Python errors distinguished by the embedding: `ValueError` and
`TypeError`, each carrying a message. -/
inductive PyErr where
  | valueError : String → PyErr
  | typeError : String → PyErr
deriving Repr, DecidableEq

/-- Python `format(q, ".1f")` for the non-negative heart-rate values
occurring in session records: one digit after the decimal point, rounding
half up (the session values used here are exact multiples of one tenth, so
no rounding-mode subtlety arises).  The number of tenths is
`⌊10q + 1/2⌋ = ⌊(20 num + den) / (2 den)⌋`, computed on the numerator and
denominator directly. -/
def fmt1 (q : ℚ) : String :=
  let n : Nat := (Int.ediv (20 * q.num + (q.den : Int)) (2 * (q.den : Int))).toNat
  toString (n / 10) ++ "." ++ toString (n % 10)

/-- One labeled session block of the chat context, embedding the f-string
appended to `context_parts` in `_build_context` (note the leading and
trailing newline of the source triple-quoted string). -/
def sessionBlock (label sid : String) (s : Session) : String :=
  "\n## " ++ label ++ " (ID: " ++ sid ++ ")" ++
  "\n- Date: " ++ s.created_at ++
  "\n- Duration: " ++ toString s.duration_seconds ++ " seconds" ++
  "\n- Average Heart Rate: " ++ fmt1 s.average_heart_rate ++ " BPM" ++
  "\n- Max Heart Rate: " ++ fmt1 s.max_heart_rate ++ " BPM" ++
  "\n- Min Heart Rate: " ++ fmt1 s.min_heart_rate ++ " BPM" ++
  "\n- R-Peaks Detected: " ++ toString s.r_peak_count ++ "\n"

/-- The label chosen for position `i` (0-based) when `total` ids were
requested: `"Session (i+1)"` when more than one id was requested, else
`"Latest Session"`. -/
def blockLabel (total i : Nat) : String :=
  if 1 < total then "Session " ++ toString (i + 1) else "Latest Session"

/-- The enumeration loop of `_build_context`: for each requested id, first
convert it with `int(...)` (a non-numeral raises `ValueError`), then look
it up in storage; a miss is silently skipped, a hit is rendered into a
labeled block. -/
def buildParts (store : Int → Option Session) (total : Nat) :
    Nat → List String → Except PyErr (List String)
  | _, [] => .ok []
  | i, sid :: rest =>
    match python_int sid with
    | none => .error (PyErr.valueError ("invalid literal for int() with base 10: " ++ sid))
    | some n =>
      match store n with
      | none => buildParts store total (i + 1) rest
      | some s =>
        match buildParts store total (i + 1) rest with
        | .error e => .error e
        | .ok tail => .ok (sessionBlock (blockLabel total i) sid s :: tail)

/-- Embeds `_build_context` from `chat.py`; the storage collaborator
`get_complete_session` is the parameter `store`. -/
def _build_context (store : Int → Option Session) (session_ids : List String) :
    Except PyErr String :=
  if session_ids.isEmpty then .ok ""
  else
    match buildParts store session_ids.length 0 session_ids with
    | .error e => .error e
    | .ok parts => .ok (String.intercalate "\n" parts)

/-! ## HRV calculator (`gemini_service.py`, `_calculate_hrv`) -/

/-- One R-peak record: the `rr_interval` dictionary entry may be absent. -/
structure RPeak where
  rr_interval : Option ℚ
deriving Repr, DecidableEq

/-- The filter-and-extract comprehension of `_calculate_hrv`: keep peaks
whose `rr_interval` is present, truthy (non-zero) and strictly positive,
then read off the interval values. -/
def rr_intervals (r_peaks : List RPeak) : List ℚ :=
  (r_peaks.filter (fun p =>
    match p.rr_interval with
    | none => false
    | some v => decide (v ≠ 0) && decide (0 < v))).map (fun p => p.rr_interval.getD 0)

/-- Sum of a list of rationals. -/
def listSumQ (l : List ℚ) : ℚ := l.foldr (fun a b => a + b) 0

/-- Arithmetic mean of a list of rationals. -/
def meanQ (l : List ℚ) : ℚ := listSumQ l / (l.length : ℚ)

/-- Sample variance (denominator `n - 1`), the square of
`statistics.stdev`. -/
def sdnn_sq (l : List ℚ) : ℚ :=
  listSumQ (l.map (fun x => (x - meanQ l) ^ 2)) / ((l.length : ℚ) - 1)

/-- Absolute successive differences of consecutive list entries. -/
def succAbsDiffs : List ℚ → List ℚ
  | x :: y :: t => |y - x| :: succAbsDiffs (y :: t)
  | _ => []

/-- Mean of the squared successive differences, the square of the RMSSD
value computed by the source (with the source's guard: an empty
difference list yields `0.0`). -/
def rmssd_sq (l : List ℚ) : ℚ :=
  let d := succAbsDiffs l
  if d.isEmpty then 0 else listSumQ (d.map (fun x => x ^ 2)) / (d.length : ℚ)

/-- Embeds `GeminiService._calculate_hrv`.  The Python function returns
`(sqrt of first component, sqrt of second component)` of this pair as
floats; both degenerate guards (`len(r_peaks) < 2` and fewer than two
valid intervals) return `(0.0, 0.0)` before any square root is taken.  In
exact rational arithmetic the guarded statistics calls cannot raise, so
the source's defensive `except` arm is unreachable. -/
def _calculate_hrv_sq (r_peaks : List RPeak) : ℚ × ℚ :=
  if r_peaks.length < 2 then (0, 0)
  else
    let rr := rr_intervals r_peaks
    if rr.length < 2 then (0, 0)
    else (sdnn_sq rr, rmssd_sq rr)

/-- The four-interval example sequence from the specification. -/
def examplePeaks : List RPeak :=
  [⟨some 800⟩, ⟨some 810⟩, ⟨some 790⟩, ⟨some 805⟩]

/-! ## JSON values and `json.loads` (strict mode)

`_parse_response` feeds a brace-delimited slice of the model text to
`json.loads`.  The decoder is embedded as a recursive-descent parser over
`List Char`, written with a structural fuel argument so that concrete runs
reduce inside `decide` / `rfl` proofs.  JSON integers and floats are both
carried as `ℚ` (the distinction is observable only through Python-side
string rendering, which no claim exercises); the non-standard `NaN` /
`Infinity` extensions are not modelled. -/

inductive Json where
  | null : Json
  | bool : Bool → Json
  | num : ℚ → Json
  | str : String → Json
  | arr : List Json → Json
  | obj : List (String × Json) → Json
deriving Repr, Inhabited

/-- JSON insignificant whitespace. -/
def jsonWs (c : Char) : Bool :=
  (c == ' ') || (c == '\t') || (c == '\n') || (c == '\r')

/-- Skip insignificant whitespace. -/
def skipWs (cs : List Char) : List Char := cs.dropWhile jsonWs

/-- Hexadecimal digit value. -/
def hexVal (c : Char) : Option Nat :=
  if c.isDigit then some (c.toNat - 48)
  else if 'a' ≤ c ∧ c ≤ 'f' then some (c.toNat - 87)
  else if 'A' ≤ c ∧ c ≤ 'F' then some (c.toNat - 70)
  else none

/-- Body of a JSON string after the opening quote, with the strict-mode
rules of `json.loads`: raw control characters are rejected, escapes are
the standard set (`\u` escapes outside the surrogate mechanism are mapped
directly to the code point). -/
def parseStrChars : Nat → List Char → Option (List Char × List Char)
  | 0, _ => none
  | _ + 1, [] => none
  | fuel + 1, c :: rest =>
    if c = quoteC then some ([], rest)
    else if c = bslashC then
      match rest with
      | [] => none
      | e :: rest2 =>
        if e = quoteC ∨ e = bslashC ∨ e = '/' then
          (parseStrChars fuel rest2).map (fun p => (e :: p.1, p.2))
        else if e = 'b' then
          (parseStrChars fuel rest2).map (fun p => (Char.ofNat 8 :: p.1, p.2))
        else if e = 'f' then
          (parseStrChars fuel rest2).map (fun p => (Char.ofNat 12 :: p.1, p.2))
        else if e = 'n' then
          (parseStrChars fuel rest2).map (fun p => ('\n' :: p.1, p.2))
        else if e = 'r' then
          (parseStrChars fuel rest2).map (fun p => ('\r' :: p.1, p.2))
        else if e = 't' then
          (parseStrChars fuel rest2).map (fun p => ('\t' :: p.1, p.2))
        else if e = 'u' then
          match rest2 with
          | h1 :: h2 :: h3 :: h4 :: rest3 =>
            match hexVal h1, hexVal h2, hexVal h3, hexVal h4 with
            | some a, some b, some c2, some d =>
              (parseStrChars fuel rest3).map
                (fun p => (Char.ofNat (((a * 16 + b) * 16 + c2) * 16 + d) :: p.1, p.2))
            | _, _, _, _ => none
          | _ => none
        else none
    else if c.toNat < 32 then none
    else (parseStrChars fuel rest).map (fun p => (c :: p.1, p.2))

/-- Optional exponent part of a JSON number; absent exponent is `0`. -/
def expParse (cs : List Char) : Option (Int × List Char) :=
  match cs with
  | c :: t =>
    if c = 'e' ∨ c = 'E' then
      let sgn : Bool × List Char :=
        match t with
        | c2 :: t2 => if c2 = '-' then (true, t2) else if c2 = '+' then (false, t2) else (false, t)
        | [] => (false, t)
      let ds := sgn.2.takeWhile Char.isDigit
      if ds.isEmpty then none
      else
        some ((if sgn.1 then -(digitsToNat ds : Int) else (digitsToNat ds : Int)),
          sgn.2.dropWhile Char.isDigit)
    else some (0, cs)
  | [] => some (0, cs)

/-- Multiply a rational by a signed power of ten. -/
def applyExp (q : ℚ) (e : Int) : ℚ :=
  if 0 ≤ e then q * (10 : ℚ) ^ e.toNat else q / (10 : ℚ) ^ (-e).toNat

/-- A JSON number: optional minus, integer digits without a spurious
leading zero, optional fraction, optional exponent. -/
def parseNumber (cs : List Char) : Option (ℚ × List Char) :=
  let sgn : Bool × List Char :=
    match cs with
    | c :: t => if c = '-' then (true, t) else (false, cs)
    | [] => (false, [])
  let ints := sgn.2.takeWhile Char.isDigit
  let cs2 := sgn.2.dropWhile Char.isDigit
  if ints.isEmpty then none
  else if 1 < ints.length ∧ ints.headD '0' = '0' then none
  else
    let fracPart : Option (List Char × List Char) :=
      match cs2 with
      | c :: t =>
        if c = '.' then
          let f := t.takeWhile Char.isDigit
          if f.isEmpty then none else some (f, t.dropWhile Char.isDigit)
        else some ([], cs2)
      | [] => some ([], cs2)
    match fracPart with
    | none => none
    | some (frac, cs3) =>
      match expParse cs3 with
      | none => none
      | some (e, cs4) =>
        let base : ℚ := (digitsToNat ints : ℚ) + (digitsToNat frac : ℚ) / (10 : ℚ) ^ frac.length
        some (applyExp (if sgn.1 then -base else base) e, cs4)

/-- The three mutually recursive production parsers (value, object members,
array elements), bundled so the recursion is structural on the fuel and
therefore kernel-reducible.  Both member and element parsers are entered
after the opening bracket of a non-empty container, positioned at the
first member/element. -/
def parsers (fuel : Nat) :
    (List Char → Option (Json × List Char)) ×
    (List Char → Option (List (String × Json) × List Char)) ×
    (List Char → Option (List Json × List Char)) :=
  match fuel with
  | 0 => (fun _ => none, fun _ => none, fun _ => none)
  | fuel + 1 =>
    let pv := (parsers fuel).1
    let pm := (parsers fuel).2.1
    let pe := (parsers fuel).2.2
    ( fun cs =>
        match skipWs cs with
        | [] => none
        | c :: rest =>
          if c = quoteC then
            (parseStrChars (rest.length + 1) rest).map (fun p => (Json.str (String.mk p.1), p.2))
          else if c = lbraceC then
            match skipWs rest with
            | c2 :: rest2 =>
              if c2 = rbraceC then some (Json.obj [], rest2)
              else
                (pm (c2 :: rest2)).map (fun p => (Json.obj p.1, p.2))
            | [] => none
          else if c = '[' then
            match skipWs rest with
            | c2 :: rest2 =>
              if c2 = ']' then some (Json.arr [], rest2)
              else
                (pe (c2 :: rest2)).map (fun p => (Json.arr p.1, p.2))
            | [] => none
          else if c = 't' then
            if ['r', 'u', 'e'].isPrefixOf rest then some (Json.bool true, rest.drop 3) else none
          else if c = 'f' then
            if ['a', 'l', 's', 'e'].isPrefixOf rest then some (Json.bool false, rest.drop 4) else none
          else if c = 'n' then
            if ['u', 'l', 'l'].isPrefixOf rest then some (Json.null, rest.drop 3) else none
          else
            (parseNumber (c :: rest)).map (fun p => (Json.num p.1, p.2)),
      fun cs =>
        match skipWs cs with
        | [] => none
        | c :: rest =>
          if c = quoteC then
            match parseStrChars (rest.length + 1) rest with
            | none => none
            | some (key, r1) =>
              match skipWs r1 with
              | c2 :: r2 =>
                if c2 = ':' then
                  match pv r2 with
                  | none => none
                  | some (v, r3) =>
                    match skipWs r3 with
                    | c3 :: r4 =>
                      if c3 = ',' then
                        (pm r4).map (fun p => ((String.mk key, v) :: p.1, p.2))
                      else if c3 = rbraceC then some ([(String.mk key, v)], r4)
                      else none
                    | [] => none
                else none
              | [] => none
          else none,
      fun cs =>
        match pv cs with
        | none => none
        | some (v, r) =>
          match skipWs r with
          | c :: r2 =>
            if c = ',' then (pe r2).map (fun p => (v :: p.1, p.2))
            else if c = ']' then some ([v], r2)
            else none
          | [] => none )

/-- The JSON value parser at a given fuel. -/
def parseValue (fuel : Nat) (cs : List Char) : Option (Json × List Char) :=
  (parsers fuel).1 cs

/-- Embeds `json.loads` on a character list: one value, then only trailing
whitespace.  `cs.length + 1` fuel is ample, since every recursive descent
consumes at least one character first. -/
def json_loads_list (cs : List Char) : Option Json :=
  match parseValue (cs.length + 1) cs with
  | some (v, rest) => if (skipWs rest).isEmpty then some v else none
  | none => none

/-! ## Response parser (`gemini_service.py`, `_parse_response`) -/

/-- The analysis-result dictionary.  The parse paths fill every key (so the
last four fields are `some`); the transport-degraded result built in
`analyze_ecg` carries only the first four keys (the last four fields are
`none`).  Fields other than the coerced confidence score pass the decoded
JSON value through untouched, as the source does. -/
structure AnalysisResult where
  prediction : Json
  confidence_score : ℚ
  risk_level : Json
  recommendations : Json
  clinical_analysis : Option Json
  diagnosis_summary : Option Json
  detailed_analysis : Option String
  summary : Option Json
deriving Repr

/-- Python `dict.get(key, default)` on a decoded JSON value.  For duplicate
keys the last binding wins, matching `dict` construction order; the
argument is always an object on the reachable paths. -/
def Json.getD (j : Json) (key : String) (dflt : Json) : Json :=
  match j with
  | .obj kvs => kvs.foldl (fun acc p => if p.1 = key then some p.2 else acc) none |>.getD dflt
  | _ => dflt

/-- Modelled from Python `float(s)` for `str` arguments: optional
surrounding whitespace and sign, then digits with an optional decimal
point (at least one mantissa digit somewhere) and an optional exponent.
(`inf` / `nan` literals and underscore grouping are not modelled; no input
exercised here uses them.) -/
def floatOfString (s : String) : Option ℚ :=
  let cs := pyStripL s.data
  let sgn : Bool × List Char :=
    match cs with
    | c :: t => if c = '-' then (true, t) else if c = '+' then (false, t) else (false, cs)
    | [] => (false, [])
  let ints := sgn.2.takeWhile Char.isDigit
  let cs2 := sgn.2.dropWhile Char.isDigit
  let fracPart : Option (List Char × List Char) :=
    match cs2 with
    | c :: t => if c = '.' then some (t.takeWhile Char.isDigit, t.dropWhile Char.isDigit) else some ([], cs2)
    | [] => some ([], cs2)
  match fracPart with
  | none => none
  | some (frac, cs3) =>
    if ints.isEmpty ∧ frac.isEmpty then none
    else
      match expParse cs3 with
      | none => none
      | some (e, cs4) =>
        if cs4.isEmpty then
          let base : ℚ := (digitsToNat ints : ℚ) + (digitsToNat frac : ℚ) / (10 : ℚ) ^ frac.length
          some (applyExp (if sgn.1 then -base else base) e)
        else none

/-- Python `float(x)` applied to a decoded JSON value: numbers and booleans
coerce, numeric strings convert, non-numeric strings raise `ValueError`,
and `None` / lists / objects raise `TypeError` — the latter is the one
exception `_parse_response` does not catch. -/
def pyFloat : Json → Except PyErr ℚ
  | .num q => .ok q
  | .bool b => .ok (if b then 1 else 0)
  | .str s =>
    match floatOfString s with
    | some q => .ok q
    | none => .error (PyErr.valueError ("could not convert string to float: " ++ s))
  | .null => .error (PyErr.typeError "float() argument must be a string or a real number, not NoneType")
  | .arr _ => .error (PyErr.typeError "float() argument must be a string or a real number, not list")
  | .obj _ => .error (PyErr.typeError "float() argument must be a string or a real number, not dict")

/-- Python `str(x)` of a decoded JSON value, used only inside the rendered
detailed-analysis block.  String values render verbatim; the container and
numeric renderings approximate Python's `str` (no claim inspects them). -/
def pyStr : Json → String
  | .str s => s
  | .num q => toString q
  | .bool b => if b then "True" else "False"
  | .null => "None"
  | .arr _ => "[...]"
  | .obj _ => "{...}"

/-- The fixed four-section text block rendered from a non-empty
`detailed_analysis` object. -/
def renderDetailed (d : Json) : String :=
  "**Rhythm Assessment:** " ++ pyStr (d.getD "rhythm_assessment" (Json.str "N/A")) ++
  "\n\n**Rate Analysis:** " ++ pyStr (d.getD "rate_analysis" (Json.str "N/A")) ++
  "\n\n**HRV Interpretation:** " ++ pyStr (d.getD "hrv_interpretation" (Json.str "N/A")) ++
  "\n\n**Clinical Significance:** " ++ pyStr (d.getD "clinical_significance" (Json.str "N/A"))

/-- The `detailed_analysis` text: a non-empty object renders to the fixed
block, a string passes through verbatim, anything else leaves the
initialised empty string. -/
def detailedText (detailed : Json) : String :=
  match detailed with
  | .obj kvs => if kvs.isEmpty then "" else renderDetailed (Json.obj kvs)
  | .str s => s
  | _ => ""

/-- The successful-parse result dictionary of `_parse_response`, given the
decoded object and the coerced confidence value. -/
def successResult (data : Json) (conf : ℚ) : AnalysisResult :=
  { prediction := data.getD "prediction" (Json.str "ECG Analysis Complete"),
    confidence_score := conf,
    risk_level := data.getD "risk_level" (Json.str "low"),
    recommendations := data.getD "recommendations" (Json.arr []),
    clinical_analysis := some (data.getD "clinical_analysis" (Json.str "")),
    diagnosis_summary := some (data.getD "simple_explanation" (Json.str "")),
    detailed_analysis := some (detailedText (data.getD "detailed_analysis" (Json.obj []))),
    summary := some (data.getD "summary" (Json.str "")) }

/-- The fixed fallback result of `_parse_response`: the raw text truncated
to 200 characters, confidence `0.5`, risk `"low"`, one generic
recommendation, and empty strings for the remaining keys. -/
def fallbackResult (text : String) : AnalysisResult :=
  { prediction := Json.str (if 200 < text.length then String.mk (text.data.take 200) else text),
    confidence_score := 1 / 2,
    risk_level := Json.str "low",
    recommendations := Json.arr [Json.str "Please consult a healthcare professional for interpretation"],
    clinical_analysis := some (Json.str ""),
    diagnosis_summary := some (Json.str ""),
    detailed_analysis := some "",
    summary := some (Json.str "") }

/-- Markdown code-fence stripping of `_parse_response`, applied to the
already-stripped text: drop an opening ``` line (everything up to and
including the first newline) and, if the remainder ends in ```, drop those
three characters and strip again. -/
def stripFence (cs : List Char) : List Char :=
  if (List.replicate 3 btickC).isPrefixOf cs then
    let afterNl :=
      match cs.findIdx? (fun c => c = '\n') with
      | some i => if 0 < i then cs.drop (i + 1) else cs
      | none => cs
    if (List.replicate 3 btickC).isSuffixOf afterNl then
      pyStripL (afterNl.take (afterNl.length - 3))
    else afterNl
  else cs

/-- The brace-scanning slice of `_parse_response`: from the first opening
brace to the last closing brace inclusive, provided the first opening
brace comes before the last closing brace. -/
def braceSlice (cs : List Char) : Option (List Char) :=
  match cs.findIdx? (fun c => c = lbraceC), (cs.reverse.findIdx? (fun c => c = rbraceC)) with
  | some s, some ir =>
    let e := cs.length - 1 - ir
    if s < e + 1 then some ((cs.take (e + 1)).drop s) else none
  | _, _ => none

/-- Embeds `GeminiService._parse_response`.  The `except` clause of the
source catches `json.JSONDecodeError` and `ValueError` only, so a
`TypeError` raised by `float(...)` on a wrong-typed confidence value
escapes as `.error`; every caught failure falls back to
`fallbackResult`. -/
def _parse_response (text : String) : Except PyErr AnalysisResult :=
  match braceSlice (stripFence (pyStripL text.data)) with
  | none => .ok (fallbackResult text)
  | some js =>
    match json_loads_list js with
    | none => .ok (fallbackResult text)
    | some data =>
      match pyFloat (data.getD "confidence" (Json.num (3 / 4))) with
      | .error (PyErr.valueError _) => .ok (fallbackResult text)
      | .error (PyErr.typeError m) => .error (PyErr.typeError m)
      | .ok conf => .ok (successResult data conf)

/-! ## Analysis entry point and chat flow (`gemini_service.py`) -/

/-- Rendering `str(e)` of a modelled Python exception. -/
def pyErrStr : PyErr → String
  | .valueError m => m
  | .typeError m => m

/-- The transport-degraded result dictionary built in the `except` arm of
`analyze_ecg` (only four keys). -/
def degradedResult (e : String) : AnalysisResult :=
  { prediction := Json.str ("Analysis unavailable: " ++ e),
    confidence_score := 0,
    risk_level := Json.str "low",
    recommendations := Json.arr [Json.str "Please try again later or consult a healthcare professional"],
    clinical_analysis := none,
    diagnosis_summary := none,
    detailed_analysis := none,
    summary := none }

/-- Embeds `GeminiService.analyze_ecg`.  The outbound call
`_call_gemini_api` (a non-200 status raises, a 200 yields the first
candidate text) is abstracted by its outcome `apiResult`; the image
download and prompt construction that precede it influence the result
only through that outcome.  Both a transport failure and an uncaught
parser exception are converted by the `except Exception` arm into the
degraded result embedding `str(e)`. -/
def analyze_ecg (apiResult : Except String String) : AnalysisResult :=
  match apiResult with
  | .error e => degradedResult e
  | .ok text =>
    match _parse_response text with
    | .ok r => r
    | .error err => degradedResult (pyErrStr err)

/-- Whether the raw chat reply begins with an opening brace. -/
def startsBrace (s : String) : Bool :=
  match s.data with
  | c :: _ => c == lbraceC
  | [] => false

/-- The fixed clarifying message substituted for a JSON-looking chat reply. -/
def clarifyMsg : String :=
  "I" ++ apos ++ "m here to help! Could you please rephrase your question?"

/-- The fixed retry message substituted for a failed chat transport call. -/
def retryMsg : String :=
  "I" ++ apos ++ "m having trouble connecting right now. Please try again in a moment! 🔄"

/-- Embeds `GeminiService.chat_with_context`: the prompt assembly feeds the
outbound call, abstracted by its outcome `apiResult`; a reply beginning
with an opening brace is replaced by the clarifying message, any exception
by the retry message, and otherwise the reply is stripped. -/
def chat_with_context (apiResult : Except String String) : String :=
  match apiResult with
  | .ok response => if startsBrace response then clarifyMsg else pyStrip response
  | .error _ => retryMsg

/-- The chat endpoint's response body (the `created_at` timestamp, taken
from the wall clock, is outside the embedding). -/
structure ChatResponse where
  response : String
  intent : String
  session_ids : List String
deriving Repr, DecidableEq

/-- Whether a handler outcome is a normal response rather than a
propagated exception. -/
def respOk : Except PyErr ChatResponse → Bool
  | .ok _ => true
  | .error _ => false

/-- Embeds the `send_chat_message` handler from `chat.py`: intent
detection, context assembly (which can raise out of the handler), then the
chat reply.  The profile fetch and history write are external pass-through
calls and the outbound chat call is abstracted by its outcome. -/
def send_chat_message (recents : List String) (store : Int → Option Session)
    (apiResult : Except String String) (message : String)
    (session_id : Option String) : Except PyErr ChatResponse :=
  let det := _detect_intent message session_id recents
  match _build_context store det.2 with
  | .error e => .error e
  | .ok _context =>
    .ok { response := chat_with_context apiResult, intent := det.1, session_ids := det.2 }

/-- The risk level carried by a parser outcome, when it returned normally. -/
def riskOf : Except PyErr AnalysisResult → Option Json
  | .ok r => some r.risk_level
  | .error _ => none

/-- The closed risk-level vocabulary of the data model. -/
def riskLevels : List String := ["low", "moderate", "high", "critical"]

/-! ## Concrete inputs exercised by the claims -/

set_option maxRecDepth 40000

/-- The specification's comparison-intent example message,
"How does this compare to last week's trend?". -/
def c3msg : String := "How does this compare to last week" ++ apos ++ "s trend?"

/-- A fenced model reply carrying a well-formed JSON analysis object. -/
def c8text : String :=
  "```json\n\x7b\"prediction\":\"X\",\"confidence\":0.9,\"risk_level\":\"high\",\"recommendations\":[\"a\",\"b\"]\x7d\n```"

/-- A model reply whose `confidence` field is `null` — present but of a
type `float(...)` rejects with `TypeError`. -/
def c2bad : String := "\x7b\"confidence\": null\x7d"

/-- A model reply whose `risk_level` field is an arbitrary string outside
the documented vocabulary. -/
def c9text : String := "\x7b\"risk_level\":\"banana\"\x7d"

/-- A 250-character non-JSON garbage reply. -/
def garbage250 : String := String.mk (List.replicate 250 'x')

/-- A concrete stored session used by the context-builder claims. -/
def testSession : Session :=
  { created_at := "2026-01-01", duration_seconds := 60,
    average_heart_rate := ⟨145, 2, by decide, by decide⟩,
    max_heart_rate := 90, min_heart_rate := 60, r_peak_count := 72 }

/-- A storage collaborator holding only session `2`. -/
def storeOnly2 : Int → Option Session := fun n => if n = 2 then some testSession else none

/-- A storage collaborator holding only session `1`. -/
def storeOnly1 : Int → Option Session := fun n => if n = 1 then some testSession else none

/-! ## Claim C1 — HRV values on the example interval sequence -/

/-- Shared evaluation of the HRV calculator on the example sequence: the
pre-square-root pair is exactly `(875/12, 725/3)`. -/
theorem hrv_example_sq : _calculate_hrv_sq examplePeaks = (875 / 12, 725 / 3) := by
  have hrr : rr_intervals examplePeaks = [800, 810, 790, 805] := rfl
  have hmain : _calculate_hrv_sq examplePeaks =
      (sdnn_sq [800, 810, 790, 805], rmssd_sq [800, 810, 790, 805]) := rfl
  rw [hmain]
  have h1 : sdnn_sq [800, 810, 790, 805] = 875 / 12 := by
    norm_num [sdnn_sq, meanQ, listSumQ]
  have h2 : rmssd_sq [800, 810, 790, 805] = 725 / 3 := by
    norm_num [rmssd_sq, succAbsDiffs, listSumQ]
  rw [h1, h2]

/-- C1 (amended): on R-R intervals [800, 810, 790, 805] the HRV calculator
computes the sample-variance pair `(875/12, 725/3)`, whose square roots —
the returned SDNN and RMSSD — lie in `(8.53, 8.55)` and `(15.54, 15.56)`
respectively: SDNN ≈ 8.54 as claimed, but RMSSD ≈ 15.55, not 14.3. -/
theorem hrv_example_metrics :
    _calculate_hrv_sq examplePeaks = (875 / 12, 725 / 3) ∧
    ((8.53 : ℝ) < Real.sqrt ((875 / 12 : ℚ) : ℝ) ∧ Real.sqrt ((875 / 12 : ℚ) : ℝ) < 8.55) ∧
    ((15.54 : ℝ) < Real.sqrt ((725 / 3 : ℚ) : ℝ) ∧ Real.sqrt ((725 / 3 : ℚ) : ℝ) < 15.56) := by
  refine ⟨hrv_example_sq, ⟨?_, ?_⟩, ⟨?_, ?_⟩⟩
  · rw [Real.lt_sqrt (by norm_num)]
    norm_num
  · rw [Real.sqrt_lt' (by norm_num)]
    norm_num
  · rw [Real.lt_sqrt (by norm_num)]
    norm_num
  · rw [Real.sqrt_lt' (by norm_num)]
    norm_num

/-- C1 (counterexample): the RMSSD returned for the example sequence is
the square root of `725/3`, which exceeds `14.3 + 0.5` — it is not 14.3
within any rounding tolerance. -/
theorem hrv_rmssd_not_14_3 :
    (_calculate_hrv_sq examplePeaks).2 = 725 / 3 ∧
    (14.3 : ℝ) + 0.5 < Real.sqrt ((725 / 3 : ℚ) : ℝ) := by
  constructor
  · rw [hrv_example_sq]
  · rw [Real.lt_sqrt (by norm_num)]
    norm_num

/-! ## Claim C7 — degenerate HRV inputs -/

/-- C7: for fewer than two R-peak records, or fewer than two present and
strictly positive R-R intervals, the HRV calculator returns the zero pair,
so both returned metrics (their square roots) are `0.0`; the function is
total, so it cannot fail on any input. -/
theorem hrv_degenerate_zero (r_peaks : List RPeak)
    (h : r_peaks.length < 2 ∨ (rr_intervals r_peaks).length < 2) :
    _calculate_hrv_sq r_peaks = (0, 0) ∧
    Real.sqrt (((_calculate_hrv_sq r_peaks).1 : ℝ)) = 0 ∧
    Real.sqrt (((_calculate_hrv_sq r_peaks).2 : ℝ)) = 0 := by
  have hz : _calculate_hrv_sq r_peaks = (0, 0) := by
    unfold _calculate_hrv_sq
    by_cases h2 : r_peaks.length < 2
    · simp [h2]
    · rcases h with h | h
      · exact absurd h h2
      · simp [h2, h]
  refine ⟨hz, ?_, ?_⟩ <;> rw [hz] <;> simp

/-- Witness for C7 at the one-element input `[{rr_interval: 800}]`. -/
theorem hrv_degenerate_zero_witness :
    _calculate_hrv_sq [RPeak.mk (some 800)] = (0, 0) :=
  (hrv_degenerate_zero [RPeak.mk (some 800)] (Or.inl (by decide))).1

/-! ## Claim C3 — intent classification priority -/

/-- C3 (counterexample): an explicitly passed empty-string session id is
falsy in the source's truthiness test, so it does not produce the
`session_specific` intent the claim promises for every explicit id. -/
theorem intent_empty_sid_counterexample :
    _detect_intent "hi" (some "") ["s1", "s2"] = ("general_health", []) ∧
    _detect_intent "hi" (some "") ["s1", "s2"] ≠ ("session_specific", [""]) := by
  exact ⟨by decide, by decide⟩

/-- C3 (amended): the classifier applies first-match-wins priority —
a non-empty explicit session id wins unconditionally (an empty-string id
is treated as absent), then comparison keywords (2 most recent sessions),
then trend keywords (7), then session-query keywords (1), else
`general_health` with no sessions; the example comparison message takes
the comparison branch with exactly 2 ids when 2 or more exist. -/
theorem intent_priority_order (message sid : String) (recents : List String) :
    (sid ≠ "" → _detect_intent message (some sid) recents = ("session_specific", [sid])) ∧
    (_detect_intent message (some "") recents = _detect_intent message none recents) ∧
    (containsAny (pyLower message) comparisonWords = true →
      _detect_intent message none recents = ("comparison", recents.take 2)) ∧
    (containsAny (pyLower message) comparisonWords = false →
     containsAny (pyLower message) trendWords = true →
      _detect_intent message none recents = ("trend_analysis", recents.take 7)) ∧
    (containsAny (pyLower message) comparisonWords = false →
     containsAny (pyLower message) trendWords = false →
     containsAny (pyLower message) sessionWords = true →
      _detect_intent message none recents = ("session_query", recents.take 1)) ∧
    (containsAny (pyLower message) comparisonWords = false →
     containsAny (pyLower message) trendWords = false →
     containsAny (pyLower message) sessionWords = false →
      _detect_intent message none recents = ("general_health", [])) ∧
    (2 ≤ recents.length →
      _detect_intent c3msg none recents = ("comparison", recents.take 2) ∧
      (recents.take 2).length = 2) := by
  refine ⟨?_, ?_, ?_, ?_, ?_, ?_, ?_⟩
  · intro h
    have ht : truthy (some sid) = true := by
      simp [truthy, h]
    simp [_detect_intent, ht]
  · simp [_detect_intent, truthy]
  · intro h1
    simp [_detect_intent, truthy, h1]
  · intro h1 h2
    simp [_detect_intent, truthy, h1, h2]
  · intro h1 h2 h3
    simp [_detect_intent, truthy, h1, h2, h3]
  · intro h1 h2 h3
    simp [_detect_intent, truthy, h1, h2, h3]
  · intro h
    constructor
    · have hc : containsAny (pyLower c3msg) comparisonWords = true := by decide
      simp [_detect_intent, truthy, hc]
    · simp [List.length_take]
      omega

/-- Witness for C3: the example message with no explicit id and three
recent sessions resolves to the comparison intent over the first two. -/
theorem intent_priority_order_witness :
    _detect_intent c3msg none ["s1", "s2", "s3"] = ("comparison", ["s1", "s2"]) := by
  have h := ((intent_priority_order c3msg "x" ["s1", "s2", "s3"]).2.2.2.2.2.2 (by decide)).1
  simpa using h

/-! ## Claim C4 — context-builder block labels -/

/-- C4 (counterexample): requesting sessions ["1", "2"] when storage holds
only session 2 yields exactly one block, but that block is labeled
"Session 2" — neither "Session 1" nor "Latest Session" occurs in the
returned context. -/
theorem context_label_counterexample :
    _build_context storeOnly2 ["1", "2"] =
      .ok (sessionBlock (blockLabel 2 1) "2" testSession) ∧
    blockLabel 2 1 = "Session 2" ∧
    containsSub "Session 1" (sessionBlock (blockLabel 2 1) "2" testSession) = false ∧
    containsSub "Latest Session" (sessionBlock (blockLabel 2 1) "2" testSession) = false ∧
    containsSub "## Session 2" (sessionBlock (blockLabel 2 1) "2" testSession) = true := by
  exact ⟨rfl, rfl, by decide, by decide, by decide⟩

/-- C4 (amended): a found session's block label is determined by the
number of ids requested and the id's position, not by how many sessions
were found: one requested id renders as "Latest Session"; of two
requested ids with exactly one found, the context is that single block,
labeled "Session 1" or "Session 2" according to the found id's position. -/
theorem context_label_policy (store : Int → Option Session) (a b : String)
    (na nb : Int) (s : Session) :
    (python_int a = some na → store na = some s →
      _build_context store [a] = .ok (sessionBlock "Latest Session" a s)) ∧
    (python_int a = some na → python_int b = some nb →
     store na = some s → store nb = none →
      _build_context store [a, b] = .ok (sessionBlock "Session 1" a s)) ∧
    (python_int a = some na → python_int b = some nb →
     store na = none → store nb = some s →
      _build_context store [a, b] = .ok (sessionBlock "Session 2" b s)) := by
  refine ⟨?_, ?_, ?_⟩
  · intro ha hsa
    simp only [_build_context, buildParts, ha, hsa]
    rfl
  · intro ha hb hsa hsb
    simp only [_build_context, buildParts, ha, hb, hsa, hsb]
    rfl
  · intro ha hb hsa hsb
    simp only [_build_context, buildParts, ha, hb, hsa, hsb]
    rfl

/-- Witness for C4: with storage holding only session 1, requesting
["1", "2"] yields the single block labeled "Session 1". -/
theorem context_label_policy_witness :
    _build_context storeOnly1 ["1", "2"] = .ok (sessionBlock "Session 1" "1" testSession) :=
  (context_label_policy storeOnly1 "1" "2" 1 2 testSession).2.1 rfl rfl rfl rfl

/-! ## Claim C5 — transport failure at the analysis entry point -/

/-- C5: whatever error string the outbound generation call fails with, the
analysis entry point returns (never raises) the degraded result embedding
that error string, with confidence 0.0, risk level "low" and exactly one
generic recommendation. -/
theorem analyze_transport_failure (e : String) :
    analyze_ecg (.error e) =
      { prediction := Json.str ("Analysis unavailable: " ++ e),
        confidence_score := 0,
        risk_level := Json.str "low",
        recommendations :=
          Json.arr [Json.str "Please try again later or consult a healthcare professional"],
        clinical_analysis := none,
        diagnosis_summary := none,
        detailed_analysis := none,
        summary := none } := rfl

/-! ## Claim C6 — chat reply shaping -/

/-- C6: the chat response generator is total — a reply beginning with an
opening brace is replaced by the fixed clarifying message, a transport
failure by the fixed retry message, and any other reply is returned
stripped of surrounding whitespace. -/
theorem chat_reply_shaping (r e : String) :
    (startsBrace r = true → chat_with_context (.ok r) = clarifyMsg) ∧
    (startsBrace r = false → chat_with_context (.ok r) = pyStrip r) ∧
    chat_with_context (.error e) = retryMsg := by
  refine ⟨?_, ?_, rfl⟩ <;> intro h <;> simp [chat_with_context, h]

/-- A model reply that is accidentally JSON-shaped. -/
def braceReply : String := "\x7b\"oops\": 1\x7d"

/-- Witness for C6 at a brace-initial reply. -/
theorem chat_reply_shaping_witness :
    chat_with_context (.ok braceReply) = clarifyMsg :=
  (chat_reply_shaping braceReply "err").1 rfl

/-! ## Claim C2 — parse-failure fallback -/

/-- C2 (counterexample): on the reply whose `confidence` field is `null`
— a field present but of the wrong type — `_parse_response` raises a
`TypeError` instead of returning the fallback result. -/
theorem parse_typeerror_counterexample :
    _parse_response c2bad =
      .error (PyErr.typeError
        "float() argument must be a string or a real number, not NoneType") := rfl

/-- C2 (amended): when no brace pair is found, when the brace slice is
malformed JSON, or when a present `confidence` field is a non-numeric
string (`float` raises `ValueError`), the parser returns — without
raising — the fixed fallback: the first 200 characters of the raw text,
confidence 0.5, risk "low", the single generic recommendation, and empty
strings for the remaining fields.  But when a present `confidence` field
is of a type `float` rejects outright (`null`, array or object), the
parser propagates a `TypeError` (caught only upstream in
`analyze_ecg`). -/
theorem parse_failure_fallback (text : String) :
    ((braceSlice (stripFence (pyStripL text.data)) = none ∨
      (∃ js, braceSlice (stripFence (pyStripL text.data)) = some js ∧
        json_loads_list js = none) ∨
      (∃ js data m, braceSlice (stripFence (pyStripL text.data)) = some js ∧
        json_loads_list js = some data ∧
        pyFloat (data.getD "confidence" (Json.num (3 / 4))) =
          .error (PyErr.valueError m))) →
      _parse_response text = .ok
        { prediction :=
            Json.str (if 200 < text.length then String.mk (text.data.take 200) else text),
          confidence_score := 1 / 2,
          risk_level := Json.str "low",
          recommendations :=
            Json.arr [Json.str "Please consult a healthcare professional for interpretation"],
          clinical_analysis := some (Json.str ""),
          diagnosis_summary := some (Json.str ""),
          detailed_analysis := some "",
          summary := some (Json.str "") }) ∧
    (∀ js data m, braceSlice (stripFence (pyStripL text.data)) = some js →
      json_loads_list js = some data →
      pyFloat (data.getD "confidence" (Json.num (3 / 4))) = .error (PyErr.typeError m) →
      _parse_response text = .error (PyErr.typeError m)) := by
  constructor
  · intro h
    rcases h with h1 | ⟨js, h1, h2⟩ | ⟨js, data, m, h1, h2, h3⟩
    · simp only [_parse_response, h1]
      rfl
    · simp only [_parse_response, h1, h2]
      rfl
    · simp only [_parse_response, h1, h2, h3]
      rfl
  · intro js data m h1 h2 h3
    simp only [_parse_response, h1, h2, h3]

/-- Witness for C2 at a 250-character garbage reply with no brace pair:
the fallback truncates the prediction to 200 characters. -/
theorem parse_failure_fallback_witness :
    _parse_response garbage250 = .ok
      { prediction :=
          Json.str (if 200 < garbage250.length then String.mk (garbage250.data.take 200)
            else garbage250),
        confidence_score := 1 / 2,
        risk_level := Json.str "low",
        recommendations :=
          Json.arr [Json.str "Please consult a healthcare professional for interpretation"],
        clinical_analysis := some (Json.str ""),
        diagnosis_summary := some (Json.str ""),
        detailed_analysis := some "",
        summary := some (Json.str "") } :=
  (parse_failure_fallback garbage250).1 (Or.inl (by decide))

/-! ## Claim C8 — fenced JSON reply -/

/-- C8: the fenced JSON reply is unfenced, sliced and decoded, yielding
prediction "X", confidence 0.9, risk "high", recommendations ["a", "b"],
and empty strings for the remaining fields. -/
theorem parse_fenced_json :
    _parse_response c8text = .ok
      { prediction := Json.str "X",
        confidence_score := 9 / 10,
        risk_level := Json.str "high",
        recommendations := Json.arr [Json.str "a", Json.str "b"],
        clinical_analysis := some (Json.str ""),
        diagnosis_summary := some (Json.str ""),
        detailed_analysis := some "",
        summary := some (Json.str "") } := by
  have h : (9 / 10 : ℚ) = applyExp (((0 : ℕ) : ℚ) + ((9 : ℕ) : ℚ) / (10 : ℚ) ^ (1 : ℕ)) 0 := by
    norm_num [applyExp]
  rw [h]
  rfl

/-! ## Claim C9 — risk-level vocabulary -/

/-- C9 (counterexample): a reply whose `risk_level` field is "banana" is
parsed successfully and its risk level is passed through verbatim, outside
the documented closed vocabulary. -/
theorem risk_passthrough_counterexample :
    riskOf (_parse_response c9text) = some (Json.str "banana") ∧
    riskLevels.contains "banana" = false :=
  ⟨rfl, by decide⟩

/-- C9 (amended): the transport-degraded result and every parse-failure
fallback carry risk level "low" (inside the closed vocabulary), but a
successfully parsed result carries the model-supplied `risk_level` value
verbatim (defaulting to "low" when absent), with no validation against
the vocabulary. -/
theorem risk_level_policy (e text : String) :
    (analyze_ecg (.error e)).risk_level = Json.str "low" ∧
    (braceSlice (stripFence (pyStripL text.data)) = none →
      riskOf (_parse_response text) = some (Json.str "low")) ∧
    (∀ js, braceSlice (stripFence (pyStripL text.data)) = some js →
      json_loads_list js = none →
      riskOf (_parse_response text) = some (Json.str "low")) ∧
    (∀ js data conf, braceSlice (stripFence (pyStripL text.data)) = some js →
      json_loads_list js = some data →
      pyFloat (data.getD "confidence" (Json.num (3 / 4))) = .ok conf →
      riskOf (_parse_response text) = some (data.getD "risk_level" (Json.str "low"))) := by
  refine ⟨rfl, ?_, ?_, ?_⟩
  · intro h1
    simp only [_parse_response, h1]
    rfl
  · intro js h1 h2
    simp only [_parse_response, h1, h2]
    rfl
  · intro js data conf h1 h2 h3
    simp only [_parse_response, h1, h2, h3]
    rfl

/-- Witness for C9: the "banana" reply instantiates the verbatim
pass-through arm of the amended policy. -/
theorem risk_level_policy_witness :
    riskOf (_parse_response c9text) =
      some ((Json.obj [("risk_level", Json.str "banana")]).getD "risk_level" (Json.str "low")) :=
  (risk_level_policy "e" c9text).2.2.2 c9text.data
    (Json.obj [("risk_level", Json.str "banana")]) (3 / 4) rfl rfl rfl

/-! ## Claim C10 — non-numeral session ids escape the handler -/

/-- Helper: a context successfully built implies every requested id
survived `int(...)` conversion. -/
theorem buildParts_ok_ints (store : Int → Option Session) (total : Nat) :
    ∀ (ids : List String) (i : Nat) (parts : List String),
      buildParts store total i ids = .ok parts →
      ∀ sid ∈ ids, (python_int sid).isSome = true := by
  intro ids
  induction ids with
  | nil =>
    intro i parts _ sid hsid
    cases hsid
  | cons hd tl ih =>
    intro i parts h sid hsid
    rw [buildParts] at h
    cases hpi : python_int hd with
    | none =>
      rw [hpi] at h
      cases h
    | some n =>
      rw [hpi] at h
      dsimp only at h
      rcases List.mem_cons.mp hsid with rfl | hmem
      · simp [hpi]
      · cases hst : store n with
        | none =>
          rw [hst] at h
          exact ih (i + 1) parts h sid hmem
        | some s =>
          rw [hst] at h
          cases hrec : buildParts store total (i + 1) tl with
          | error e =>
            rw [hrec] at h
            cases h
          | ok tail =>
            exact ih (i + 1) tail hrec sid hmem

/-- Helper: lifting `buildParts_ok_ints` through `_build_context`. -/
theorem build_context_ok_ints (store : Int → Option Session) (ids : List String)
    (c : String) (h : _build_context store ids = .ok c) :
    ∀ sid ∈ ids, (python_int sid).isSome = true := by
  intro sid hsid
  rw [_build_context] at h
  by_cases he : ids.isEmpty
  · rw [List.isEmpty_iff] at he
    subst he
    cases hsid
  · rw [if_neg he] at h
    cases hbp : buildParts store ids.length 0 ids with
    | error e =>
      rw [hbp] at h
      cases h
    | ok parts =>
      exact buildParts_ok_ints store ids.length ids 0 parts hbp sid hsid

/-- C10: the chat-message handler completes normally only when every
resolved session id string converts with `int(...)`; and an explicit
non-numeral session id such as "abc" makes the handler propagate the
conversion error instead of returning a chat response. -/
theorem chat_requires_numeral_ids (recents : List String) (store : Int → Option Session)
    (apiResult : Except String String) (message : String) (sid : Option String) :
    (respOk (send_chat_message recents store apiResult message sid) = true →
      ∀ s ∈ (_detect_intent message sid recents).2, (python_int s).isSome = true) ∧
    respOk (send_chat_message recents store apiResult message (some "abc")) = false := by
  constructor
  · intro h s hs
    rw [send_chat_message] at h
    cases hbc : _build_context store (_detect_intent message sid recents).2 with
    | error e =>
      rw [hbc] at h
      cases h
    | ok c =>
      exact build_context_ok_ints store _ c hbc s hs
  · rfl

/-- Witness for C10: a handler run that completed normally had a
convertible id. -/
theorem chat_requires_numeral_ids_witness : (python_int "7").isSome = true :=
  (chat_requires_numeral_ids ["7"] (fun _ => none) (.ok "fine") "my ecg" none).1 rfl
    "7" (by decide)
